import Mathlib

/-!
Verification of the composable LLM pipeline described by the repository's
specification.  The repository's own script (src/basic_llm_chain.py) only
composes and calls the engine (prompt template, backend client, output
parsing, pipeline composition); the engine itself is an external library,
so its operations are modelled here from the specification's words.  The
module-level startup credential check is in the script itself and is
modelled from the source.
-/

deriving instance DecidableEq for Except

/-- Error taxonomy of the engine (spec section 7): unresolved template slot,
incompatible stage linkage, backend failure with a retryability flag, and
malformed response shape. -/
inductive EngineError where
  | templateError (missing : List String)
  | compositionError (msg : String)
  | backendError (msg : String) (retryable : Bool)
  | parseError (msg : String)
  deriving DecidableEq, Repr

/-- A rendered prompt: an ordered sequence of (role, fully substituted text)
pairs, immutable once produced. -/
abbrev RenderedPrompt := List (String × String)

/-- Modelled from the spec: a piece of "text with named slots" is a sequence
of segments, each either literal text or a named slot to be resolved at
render time.  (The renderer itself is library code not present in src/.) -/
inductive Seg where
  | lit (s : String)
  | slot (name : String)
  deriving DecidableEq, Repr

/-- Text with named slots. -/
abbrev SlottedText := List Seg

/-- Modelled from the spec: a PromptSpec is an ordered sequence of
(role, text-with-named-slots) pairs. -/
abbrev PromptSpec := List (String × SlottedText)

/-- The slot names referenced by a piece of slotted text, in order. -/
def slotsOfText (t : SlottedText) : List String :=
  t.filterMap fun s =>
    match s with
    | .lit _ => none
    | .slot n => some n

/-- All slot names appearing anywhere in a PromptSpec. -/
def slotsOf (spec : PromptSpec) : List String :=
  (spec.map fun m => slotsOfText m.2).flatten

/-- Look a name up in the caller-supplied values (first match wins). -/
def lookupValue (values : List (String × String)) (k : String) : Option String :=
  (values.find? fun kv => kv.1 = k).map fun kv => kv.2

/-- The slots of a spec that have no corresponding key in the values. -/
def missingSlots (spec : PromptSpec) (values : List (String × String)) : List String :=
  (slotsOf spec).filter fun n => (lookupValue values n).isNone

/-- Substitute every slot of a slotted text with its value (all slots are
assumed resolvable when this is called). -/
def renderText (values : List (String × String)) (t : SlottedText) : String :=
  String.join (t.map fun s =>
    match s with
    | .lit x => x
    | .slot n => (lookupValue values n).getD "")

/-- Modelled from the spec: `render(spec, values)` fills every slot of the
spec from the values; if any slot is unresolved it fails with a
TemplateError naming the missing slots, otherwise it produces the rendered
prompt.  Extra keys in the values are simply never consulted. -/
def render (spec : PromptSpec) (values : List (String × String)) :
    Except EngineError RenderedPrompt :=
  match missingSlots spec values with
  | [] => .ok (spec.map fun m => (m.1, renderText values m.2))
  | m => .error (.templateError m)

/-- A concrete spec mirroring the template of example 2 of the script. -/
def topicSpec : PromptSpec :=
  [ ("system", [Seg.lit "You are a helpful assistant that explains technical concepts in simple terms."])
  , ("user", [Seg.lit "Explain ", Seg.slot "topic", Seg.lit " in 2-3 sentences."]) ]

example :
    render topicSpec [("topic", "caching")] =
      .ok [ ("system", "You are a helpful assistant that explains technical concepts in simple terms.")
          , ("user", "Explain caching in 2-3 sentences.") ] := by
  decide

/-- The values flowing between stages: a plain string, a mapping of named
parameters, or a rendered message list. -/
inductive Value where
  | str (s : String)
  | mapping (kvs : List (String × String))
  | messages (ms : List (String × String))
  deriving DecidableEq, Repr

/-- Modelled from the spec: a Stage is a polymorphic unit of work with a
single-input capability; batch and streaming capabilities are derived by
the Pipeline's default adaptation.  A stage either produces an output or
fails with an engine error. -/
structure Stage where
  run : Value → Except EngineError Value

/-- Modelled from the spec: a Pipeline is an ordered, immutable sequence of
stages. -/
structure Pipeline where
  stages : List Stage

/-- Run a list of stages starting at position `i`, recording an execution
trace.  Each trace entry is (stage position, the input it received, the
result it produced).  On the first failing stage, the invocation stops and
the error is tagged with that stage's position. -/
def runStages : List Stage → Nat → Value →
    List (Nat × Value × Except EngineError Value) × Except (Nat × EngineError) Value
  | [], _, x => ([], .ok x)
  | s :: rest, i, x =>
    match s.run x with
    | .error e => ([(i, x, .error e)], .error (i, e))
    | .ok y =>
      ((i, x, .ok y) :: (runStages rest (i + 1) y).1, (runStages rest (i + 1) y).2)

/-- Modelled from the spec: `invoke` runs the chain stage by stage, feeding
each stage's output into the next; a stage failure fails the whole
invocation with that stage's error tagged with its position, and no
partial result is returned. -/
def Pipeline.invoke (p : Pipeline) (x : Value) : Except (Nat × EngineError) Value :=
  (runStages p.stages 0 x).2

/-- The observable execution trace of one invocation: which stage ran, in
which position, on which input, with which result. -/
def Pipeline.trace (p : Pipeline) (x : Value) :
    List (Nat × Value × Except EngineError Value) :=
  (runStages p.stages 0 x).1

/-- Modelled from the spec: `invoke_batch`'s default adaptation runs
`invoke` once per input and exposes results and per-item errors together,
indexed one-to-one with the inputs. -/
def Pipeline.invoke_batch (p : Pipeline) (inputs : List Value) :
    List (Except (Nat × EngineError) Value) :=
  inputs.map p.invoke

/-- Modelled from the spec: `compose` builds an ordered chain from the
given pipelines, flattening their stage lists rather than nesting. -/
def compose (ps : List Pipeline) : Pipeline :=
  ⟨(ps.map Pipeline.stages).flatten⟩

/-- Modelled from the spec: the Backend Client call contract, an external
collaborator reached through a fixed interface: `call` for one blocking
round trip returning the generated content, `callStream` for the same
request as an incremental sequence of content fragments. -/
structure Backend where
  call : RenderedPrompt → String
  callStream : RenderedPrompt → List String

/-- Modelled from the spec: the Output Normalizer extracts the `content`
verbatim — a purely structural projection that must not alter it. -/
def parseContent (content : String) : String := content

/-- Modelled from the spec: single-shot invocation of the concrete chain
prompt-template, then backend, then output normalizer (the chain built by
the script with the pipe operator). -/
def chainInvoke (spec : PromptSpec) (b : Backend) (values : List (String × String)) :
    Except EngineError String :=
  (render spec values).map fun r => parseContent (b.call r)

/-- Modelled from the spec: streaming invocation of the same chain; the
rendering stage runs eagerly to completion, then the backend's chunks are
forwarded one at a time through the normalizer in arrival order. -/
def chainStream (spec : PromptSpec) (b : Backend) (values : List (String × String)) :
    Except EngineError (List String) :=
  (render spec values).map fun r => (b.callStream r).map parseContent

/-- Events observable while the script runs: a Backend Client being
constructed and a pipeline operation being invoked. -/
inductive Event where
  | backendConstructed
  | pipelineInvoked
  deriving DecidableEq, Repr

/-- Startup configuration failure: the ValueError raised at module load
when the credential is absent. -/
inductive StartupError where
  | missingKey (msg : String)
  deriving DecidableEq, Repr

/-- The module-level credential check of src/basic_llm_chain.py (lines
17-21): if GROQ_API_KEY is absent from the process environment the module
raises a ValueError immediately, before any other code runs. -/
def startupCheck (env : Option String) : Except StartupError Unit :=
  match env with
  | none => .error (.missingKey "GROQ_API_KEY not found in environment variables. Please create a .env file with your API key.")
  | some _ => .ok ()

/-- The events main would emit: each of the five examples constructs one
ChatGroq backend client and then invokes an LLM or chain. -/
def mainEvents : List Event :=
  [ .backendConstructed, .pipelineInvoked
  , .backendConstructed, .pipelineInvoked
  , .backendConstructed, .pipelineInvoked
  , .backendConstructed, .pipelineInvoked
  , .backendConstructed, .pipelineInvoked ]

/-- The whole script: the module-level startup check runs first; only if
it passes does main run and produce its events. -/
def runScript (env : Option String) : List Event × Except StartupError Unit :=
  match startupCheck env with
  | .error e => ([], .error e)
  | .ok _ => (mainEvents, .ok ())

/-- A stage that passes its input through unchanged. -/
def echoStage : Stage := ⟨fun v => .ok v⟩

/-- A stage that fails on the specific input "bad" and passes every other
input through. -/
def failOnBad : Stage :=
  ⟨fun v => if v = .str "bad" then .error (.backendError "boom" true) else .ok v⟩

/-- A stage that always fails with a backend error. -/
def boomStage : Stage := ⟨fun _ => .error (.backendError "rate limit" true)⟩

/-- A concrete backend whose streamed fragments concatenate to exactly its
non-streaming content. -/
def demoBackend : Backend := ⟨fun _ => "poem", fun _ => ["po", "em"]⟩

/-- A one-slot template mirroring example 5 of the script. -/
def poemSpec : PromptSpec :=
  [("user", [Seg.lit "Write a short poem about ", Seg.slot "subject"])]

/-- C1: invoke_batch(inputs) has exactly one result per input, and the
result at every index i equals invoke(inputs[i]); order is preserved
one-to-one with the inputs (the model is sequential and deterministic, so
no completion-order effect can reorder results). -/
theorem invoke_batch_pointwise (p : Pipeline) (inputs : List Value) :
    (p.invoke_batch inputs).length = inputs.length ∧
    ∀ i : Nat, (p.invoke_batch inputs)[i]? = (inputs[i]?).map p.invoke := by
  refine ⟨?_, ?_⟩
  · simp [Pipeline.invoke_batch]
  · intro i
    simp [Pipeline.invoke_batch, List.getElem?_map]

/-- C4: composing (A then B) then C and composing A then (B then C) build
the very same flattened Pipeline, so invocation results and execution
traces coincide for every input. -/
theorem compose_assoc_flatten (A B C : Pipeline) :
    compose [compose [A, B], C] = compose [A, compose [B, C]] ∧
    (∀ x, (compose [compose [A, B], C]).invoke x = (compose [A, compose [B, C]]).invoke x) ∧
    (∀ x, (compose [compose [A, B], C]).trace x = (compose [A, compose [B, C]]).trace x) := by
  have h : compose [compose [A, B], C] = compose [A, compose [B, C]] := by
    simp [compose, List.append_assoc]
  exact ⟨h, fun x => by rw [h], fun x => by rw [h]⟩

/-- C5: the empty composition is the identity Pipeline: invoking it on any
input succeeds with that input unchanged. -/
theorem compose_empty_identity (x : Value) :
    (compose []).invoke x = .ok x := rfl

/-- C8: rendering is deterministic — identical spec and values give
identical (byte-identical) rendered output; the renderer is a pure
function of its two arguments, with no other state and no backend. -/
theorem render_deterministic (s1 s2 : PromptSpec) (v1 v2 : List (String × String))
    (hs : s1 = s2) (hv : v1 = v2) : render s1 v1 = render s2 v2 := by
  rw [hs, hv]

/-- Witness for C8 at the concrete spec and values of example 2. -/
theorem render_deterministic_witness :
    render topicSpec [("topic", "caching")] = render topicSpec [("topic", "caching")] :=
  render_deterministic topicSpec topicSpec [("topic", "caching")] [("topic", "caching")] rfl rfl

/-- C9: with no GROQ_API_KEY in the environment the script fails at
startup with the module-level ValueError, and no Backend Client is ever
constructed and no pipeline operation ever runs (the event list is empty);
moreover a backend construction event can only happen when the key is
present. -/
theorem startup_missing_key_fails_early :
    runScript none =
      ([], Except.error (StartupError.missingKey
        "GROQ_API_KEY not found in environment variables. Please create a .env file with your API key.")) ∧
    ∀ env, Event.backendConstructed ∈ (runScript env).1 → env ≠ none := by
  refine ⟨rfl, ?_⟩
  intro env hmem
  cases env with
  | none => simp [runScript, startupCheck] at hmem
  | some k => simp

/-- Witness for C9: with a key present a backend is constructed, and the
theorem then yields that the environment indeed holds a key. -/
theorem startup_missing_key_witness : (some "k" : Option String) ≠ none :=
  startup_missing_key_fails_early.2 (some "k") (by decide)

/-- Prepending a key different from the one being looked up does not
change the lookup result. -/
theorem lookupValue_cons_ne (k v n : String) (values : List (String × String))
    (h : n ≠ k) : lookupValue ((k, v) :: values) n = lookupValue values n := by
  unfold lookupValue
  rw [List.find?_cons_of_neg _ (by simpa using Ne.symm h)]

/-- Any slot of a message of the spec is a slot of the spec. -/
theorem mem_slotsOf {spec : PromptSpec} {m : String × SlottedText} (hm : m ∈ spec)
    {n : String} (hn : n ∈ slotsOfText m.2) : n ∈ slotsOf spec := by
  unfold slotsOf
  exact List.mem_flatten.mpr ⟨slotsOfText m.2, List.mem_map_of_mem _ hm, hn⟩

/-- Rendering a slotted text only consults the values at its slot names. -/
theorem renderText_agree {v1 v2 : List (String × String)} {t : SlottedText}
    (h : ∀ n ∈ slotsOfText t, lookupValue v1 n = lookupValue v2 n) :
    renderText v1 t = renderText v2 t := by
  unfold renderText
  congr 1
  apply List.map_congr_left
  intro s hs
  cases s with
  | lit x => rfl
  | slot n =>
    have hn : n ∈ slotsOfText t := by
      unfold slotsOfText
      exact List.mem_filterMap.mpr ⟨Seg.slot n, hs, rfl⟩
    simp only [h n hn]

/-- C2: render fails (necessarily with a TemplateError) precisely when
some slot appearing in the spec has no key in the values; and a key that
matches no slot of the spec never changes the outcome — extra keys are
ignored. -/
theorem render_template_error_iff (spec : PromptSpec) (values : List (String × String)) :
    ((∃ m, render spec values = .error (.templateError m)) ↔
      ∃ n ∈ slotsOf spec, lookupValue values n = none) ∧
    (∀ k v, k ∉ slotsOf spec →
      render spec ((k, v) :: values) = render spec values) := by
  constructor
  · unfold render
    cases h : missingSlots spec values with
    | nil =>
      constructor
      · rintro ⟨m, hm⟩
        exact absurd hm (by simp)
      · rintro ⟨n, hn, hnone⟩
        have hfalse := List.filter_eq_nil_iff.mp h n hn
        rw [hnone] at hfalse
        simp at hfalse
      | cons a as =>
      constructor
      · rintro -
        have ha : a ∈ missingSlots spec values := by
          rw [h]; exact List.mem_cons_self a as
        have hmem := List.mem_filter.mp ha
        exact ⟨a, hmem.1, by simpa using hmem.2⟩
      · intro hex
        exact ⟨a :: as, rfl⟩
  · intro k v hk
    have hm : missingSlots spec ((k, v) :: values) = missingSlots spec values := by
      unfold missingSlots
      apply List.filter_congr
      intro n hn
      have hne : n ≠ k := fun hnk => hk (hnk ▸ hn)
      rw [lookupValue_cons_ne k v n values hne]
    unfold render
    rw [hm]
    cases hms : missingSlots spec values with
    | cons a as => rfl
    | nil =>
      exact congrArg Except.ok (List.map_congr_left fun m hmem => by
        have hk2 : k ∉ slotsOfText m.2 := fun hx => hk (mem_slotsOf hmem hx)
        have hrt : renderText ((k, v) :: values) m.2 = renderText values m.2 :=
          renderText_agree fun n hn =>
            lookupValue_cons_ne k v n values (fun hnk => hk2 (hnk ▸ hn))
        rw [hrt])

/-- Witness for C2: an extra key that matches no slot of the spec leaves
rendering unchanged at the concrete spec and values of example 2. -/
theorem render_template_error_iff_witness :
    render topicSpec [("extra", "x"), ("topic", "caching")] =
      render topicSpec [("topic", "caching")] :=
  (render_template_error_iff topicSpec [("topic", "caching")]).2 "extra" "x" (by decide)

/-- C3: if the backend streams fragments whose concatenation equals its
non-streaming content, then concatenating all chunks of the streaming
invocation equals the single-shot invocation's parsed result, for every
input. -/
theorem stream_concat_law (b : Backend)
    (h : ∀ r, String.join (b.callStream r) = b.call r)
    (spec : PromptSpec) (values : List (String × String)) :
    (chainStream spec b values).map String.join = chainInvoke spec b values := by
  unfold chainStream chainInvoke parseContent
  cases hr : render spec values with
  | error e => rfl
  | ok r => simp [Except.map, List.map_id', h r]

/-- Witness for C3 at a concrete backend whose two fragments concatenate
to its non-streaming content. -/
theorem stream_concat_law_witness :
    (chainStream poemSpec demoBackend [("subject", "ai")]).map String.join =
      chainInvoke poemSpec demoBackend [("subject", "ai")] :=
  stream_concat_law demoBackend (fun _ => rfl) poemSpec [("subject", "ai")]

/-- C6: even when the item at index i fails, invoke_batch still has one
entry per input and every other index carries exactly its own standalone
invocation outcome — one bad item does not abort its siblings, and the
result list pairs each index with its result-or-error. -/
theorem invoke_batch_failure_isolated (p : Pipeline) (inputs : List Value)
    (i : Nat) (err : Nat × EngineError)
    (_hfail : (p.invoke_batch inputs)[i]? = some (.error err)) :
    (p.invoke_batch inputs).length = inputs.length ∧
    ∀ j, j ≠ i → (p.invoke_batch inputs)[j]? = (inputs[j]?).map p.invoke := by
  refine ⟨by simp [Pipeline.invoke_batch], ?_⟩
  intro j hj
  simp [Pipeline.invoke_batch, List.getElem?_map]

/-- Witness for C6: item 0 fails yet item 1 is still processed normally. -/
theorem invoke_batch_failure_isolated_witness :
    (Pipeline.invoke_batch ⟨[failOnBad]⟩ [Value.str "bad", Value.str "ok"])[1]? =
      (([Value.str "bad", Value.str "ok"] : List Value)[1]?).map
        (Pipeline.invoke ⟨[failOnBad]⟩) :=
  (invoke_batch_failure_isolated ⟨[failOnBad]⟩ [Value.str "bad", Value.str "ok"] 0
    (0, .backendError "boom" true) (by decide)).2 1 (by decide)

/-- Splitting a run across an append: when the first chunk of stages
succeeds, the run continues into the remaining stages at the shifted
position; when it fails, the failure is the whole run's outcome. -/
theorem runStages_append_snd (pre rest : List Stage) (i : Nat) (x : Value) :
    (runStages (pre ++ rest) i x).2 =
      match (runStages pre i x).2 with
      | .error err => .error err
      | .ok v => (runStages rest (i + pre.length) v).2 := by
  induction pre generalizing i x with
  | nil => simp [runStages]
  | cons s pre ih =>
    cases hs : s.run x with
    | error e => simp [runStages, hs]
    | ok y =>
      have harith : i + 1 + pre.length = i + (pre.length + 1) := by omega
      simp [runStages, hs, ih (i + 1) y, harith]

/-- C7: if every stage before position pre.length succeeds, producing the
intermediate value v, and the stage at that position fails with error e,
then the whole invocation fails with exactly that error, tagged with that
stage's position — the error is propagated unchanged and no partial
result is returned. -/
theorem invoke_stage_error_propagation (pre post : List Stage) (s : Stage)
    (x v : Value) (e : EngineError)
    (hpre : (runStages pre 0 x).2 = .ok v) (hs : s.run v = .error e) :
    Pipeline.invoke ⟨pre ++ s :: post⟩ x = .error (pre.length, e) := by
  show (runStages (pre ++ s :: post) 0 x).2 = .error (pre.length, e)
  rw [runStages_append_snd, hpre]
  simp [runStages, hs]

/-- Witness for C7: a pass-through stage, then an always-failing stage in
position 1, then another stage; the invocation fails with the failing
stage's error tagged with position 1. -/
theorem invoke_stage_error_propagation_witness :
    Pipeline.invoke ⟨[echoStage] ++ boomStage :: [echoStage]⟩ (.str "hi") =
      .error (1, .backendError "rate limit" true) :=
  invoke_stage_error_propagation [echoStage] [echoStage] boomStage (.str "hi") (.str "hi")
    (.backendError "rate limit" true) rfl rfl

/-- The stage positions recorded in a run's trace are consecutive starting
at the start position. -/
theorem runStages_trace_positions (ss : List Stage) (i : Nat) (x : Value) :
    ((runStages ss i x).1.map fun en => en.1) =
      List.range' i (runStages ss i x).1.length := by
  induction ss generalizing i x with
  | nil => simp [runStages]
  | cons s rest ih =>
    cases hs : s.run x with
    | error e => simp [runStages, hs, List.range'_succ]
    | ok y => simp [runStages, hs, ih (i + 1) y, List.range'_succ]

/-- A trace entry recording a stage failure forces the whole run to fail
with exactly that error at that position. -/
theorem runStages_error_surfaces (ss : List Stage) (i : Nat) (x : Value)
    (j : Nat) (v : Value) (e : EngineError)
    (hmem : (j, v, Except.error e) ∈ (runStages ss i x).1) :
    (runStages ss i x).2 = .error (j, e) := by
  induction ss generalizing i x with
  | nil => simp [runStages] at hmem
  | cons s rest ih =>
    cases hs : s.run x with
    | error e0 =>
      have heq : runStages (s :: rest) i x =
          ([(i, x, .error e0)], .error (i, e0)) := by
        simp [runStages, hs]
      rw [heq] at hmem ⊢
      simp only [List.mem_singleton, Prod.mk.injEq] at hmem
      obtain ⟨hj, _, he⟩ := hmem
      simp only [Except.error.injEq] at he
      rw [hj, he]
    | ok y =>
      have heq : runStages (s :: rest) i x =
          ((i, x, .ok y) :: (runStages rest (i + 1) y).1,
            (runStages rest (i + 1) y).2) := by
        simp [runStages, hs]
      rw [heq] at hmem ⊢
      rw [List.mem_cons] at hmem
      rcases hmem with h1 | h2
      · simp at h1
      · exact ih (i + 1) y h2

/-- C10: within one invocation no stage position is ever executed twice
(no internal retries), and any stage failure recorded in the execution
trace is exactly the caller-visible outcome of the invocation (no error
is swallowed by the engine). -/
theorem invoke_no_swallow_no_retry (p : Pipeline) (x : Value) :
    ((p.trace x).map fun en => en.1).Nodup ∧
    ∀ j v e, (j, v, Except.error e) ∈ p.trace x → p.invoke x = .error (j, e) := by
  constructor
  · show ((runStages p.stages 0 x).1.map fun en => en.1).Nodup
    rw [runStages_trace_positions]
    exact List.nodup_range' 0 _
  · intro j v e hmem
    exact runStages_error_surfaces p.stages 0 x j v e hmem

/-- Witness for C10: the failure of the stage in position 1 is surfaced
verbatim as the invocation's outcome. -/
theorem invoke_no_swallow_no_retry_witness :
    Pipeline.invoke ⟨[echoStage, boomStage]⟩ (.str "hi") =
      .error (1, .backendError "rate limit" true) :=
  (invoke_no_swallow_no_retry ⟨[echoStage, boomStage]⟩ (.str "hi")).2 1 (.str "hi")
    (.backendError "rate limit" true) (by decide)
